import Mathlib

/-!
A shallow embedding of the `raymarks` GPU benchmark harness
(`src/context.rs`, `src/shaders/mod.rs`, `src/main.rs`).

The GPU device, queue and filesystem are external to the repository
(wgpu / std::fs); they are modelled explicitly:
  * the filesystem is a partial map from paths (lists of components) to
    file contents;
  * a recorded command buffer is a list of `RecordedCommand`s; the
    device queue is the list of submitted command buffers;
  * GPU allocations (textures, buffers) carry fresh numeric ids drawn
    from a counter, and the context tracks the ids of the allocations
    that have not been `destroy()`-ed, so that explicit release of
    resources is visible in the state;
  * the asynchronous readback in `save_render_target` is modelled by a
    `DeviceBehavior` oracle: the device either signals completion of the
    buffer mapping (with a success/failure map result) or never signals.
    Following wgpu semantics as described by the spec,
    `device.poll(Maintain::wait())` on a device that never signals ends
    in a bounded timeout, and `.panic_on_timeout()` turns that timeout
    into a fatal panic; a panic / `unwrap` failure is modelled as
    `Except.error` of a `Fatal` value.
Machine integers: widths and heights are `u32` in the source and the
staging-buffer size is computed in `u64` (`size.0 as u64 * size.1 as u64
* 4`), which cannot overflow for `u32` inputs, so `Nat` models them
faithfully.
-/

namespace Raymarks

/-- Fatal outcomes: every error in this harness is an `unwrap`/panic. -/
inductive Fatal where
  | shaderReadError
  | mappingTimeout
  | mapFailed
  deriving DecidableEq, Repr

/-- The compile-time `CARGO_MANIFEST_DIR` environment value, an opaque
fixed string for path purposes. -/
def cargoManifestDir : String := "CARGO_MANIFEST_DIR"

/-- A filesystem path, as a list of components (`PathBuf::join` chains). -/
abbrev FsPath := List String

/-- The filesystem, external to the repository: maps a path to the file
contents when the file is present and readable. -/
abbrev FileSystem := FsPath → Option String

/-- `Shader` from `src/shaders/mod.rs`: symbolic shader identifiers. -/
inductive Shader where
  | Rasterization
  deriving DecidableEq, Repr

/-- `Shader::source_file`: the name of the source file of the shader. -/
def Shader.source_file : Shader → String
  | .Rasterization => "rasterization.wgsl"

/-- `Shader::shader_directory`: `CARGO_MANIFEST_DIR/src/shaders`. -/
def Shader.shader_directory : FsPath :=
  [cargoManifestDir, "src", "shaders"]

/-- The path `Self::shader_directory().join(self.source_file())`. -/
def Shader.sourcePath (s : Shader) : FsPath :=
  Shader.shader_directory ++ [s.source_file]

/-- `Shader::load_source`: reads the file at
`shader_directory()/source_file()`; `read_to_string(path).unwrap()`
panics when the file is absent or unreadable.  Stateless: the result
depends only on the filesystem at call time. -/
def Shader.load_source (fs : FileSystem) (s : Shader) : Except Fatal String :=
  match fs s.sourcePath with
  | none => .error .shaderReadError
  | some text => .ok text

/-- `wgpu::TextureFormat` (the one format the harness uses). -/
inductive TextureFormat where
  | Rgba8UnormSrgb
  deriving DecidableEq, Repr

/-- `wgpu::Color` (f64 components; only the exact constant
`Color::BLACK = {r: 0, g: 0, b: 0, a: 1}` occurs). -/
structure Color where
  r : ℚ
  g : ℚ
  b : ℚ
  a : ℚ
  deriving DecidableEq, Repr

/-- `wgpu::Color::BLACK`. -/
def Color.BLACK : Color := ⟨0, 0, 0, 1⟩

/-- `wgpu::LoadOp` for a color attachment. -/
inductive LoadOp where
  | Clear (c : Color)
  | Load
  deriving DecidableEq, Repr

/-- `wgpu::StoreOp`. -/
inductive StoreOp where
  | Store
  | Discard
  deriving DecidableEq, Repr

/-- The render pipeline built by `rasterization_pipeline`: shader module
source, entry points, and the single color target format. -/
structure RenderPipeline where
  shaderSource : String
  vertexEntryPoint : String
  fragmentEntryPoint : String
  targetFormat : TextureFormat
  deriving DecidableEq, Repr

/-- One `draw(vertices, instances)` call: half-open ranges. -/
structure DrawCall where
  vertexStart : Nat
  vertexEnd : Nat
  instanceStart : Nat
  instanceEnd : Nat
  deriving DecidableEq, Repr

/-- A recorded render pass: color-attachment ops on the render target,
the pipeline that was set, and the draw calls issued, in order. -/
structure RenderPassRecord where
  targetTexture : Nat
  load : LoadOp
  store : StoreOp
  pipeline : Option RenderPipeline
  draws : List DrawCall
  deriving DecidableEq, Repr

/-- A recorded `copy_texture_to_buffer` command. -/
structure CopyTextureToBufferRecord where
  srcTexture : Nat
  mipLevel : Nat
  originX : Nat
  originY : Nat
  originZ : Nat
  dstBuffer : Nat
  offset : Nat
  bytesPerRow : Option Nat
  rowsPerImage : Option Nat
  extentWidth : Nat
  extentHeight : Nat
  extentDepth : Nat
  deriving DecidableEq, Repr

/-- A command appended to the current command encoder. -/
inductive RecordedCommand where
  | renderPass (p : RenderPassRecord)
  | copyTextureToBuffer (c : CopyTextureToBufferRecord)
  deriving DecidableEq, Repr

/-- A GPU texture: its allocation id and its descriptor's extent
(`render_target` always uses mip 1, sample 1, D2, Rgba8UnormSrgb). -/
structure Texture where
  id : Nat
  width : Nat
  height : Nat
  deriving DecidableEq, Repr

/-- A GPU buffer: its allocation id and byte size. -/
structure Buffer where
  id : Nat
  size : Nat
  deriving DecidableEq, Repr

/-- `BenchmarkContext` from `src/context.rs`.  `commands` is the current
command encoder (the single live recorder); `submittedBuffers` is the
queue's record of submitted command buffers; `liveTextures` /
`liveBuffers` list the ids of GPU allocations made and not yet
destroyed; `nextId` feeds fresh allocation ids. -/
structure BenchmarkContext where
  nextId : Nat
  liveTextures : List Nat
  liveBuffers : List Nat
  commands : List RecordedCommand
  submittedBuffers : List (List RecordedCommand)
  render_target : Texture
  output_staging_buffer : Buffer
  deriving DecidableEq, Repr

namespace BenchmarkContext

/-- `BenchmarkContext::render_target(&device, size)`: creates a texture
of the given size (usage RENDER_ATTACHMENT | COPY_SRC). -/
def mkRenderTarget (id : Nat) (size : Nat × Nat) : Texture :=
  { id := id, width := size.1, height := size.2 }

/-- `BenchmarkContext::output_staging_buffer(&device, size)`: creates a
buffer of `size.0 as u64 * size.1 as u64 * 4` bytes
(usage COPY_DST | MAP_READ). -/
def mkOutputStagingBuffer (id : Nat) (size : Nat × Nat) : Buffer :=
  { id := id, size := size.1 * size.2 * 4 }

/-- `BenchmarkContext::new`: fresh empty command encoder, default
1024×1024 render target and matching staging buffer (ids 0 and 1). -/
def new : BenchmarkContext :=
  { nextId := 2
    liveTextures := [0]
    liveBuffers := [1]
    commands := []
    submittedBuffers := []
    render_target := mkRenderTarget 0 (1024, 1024)
    output_staging_buffer := mkOutputStagingBuffer 1 (1024, 1024) }

/-- `BenchmarkContext::resize_render_target`: destroys the current
render target, creates a new one of the requested size, destroys the
current staging buffer, creates a new one of the matching size — in that
order, with no validation of the arguments. -/
def resize_render_target (s : BenchmarkContext) (size : Nat × Nat) :
    BenchmarkContext :=
  let liveT := s.liveTextures.erase s.render_target.id
  let t := mkRenderTarget s.nextId size
  let liveB := s.liveBuffers.erase s.output_staging_buffer.id
  let b := mkOutputStagingBuffer (s.nextId + 1) size
  { s with
    nextId := s.nextId + 2
    liveTextures := liveT ++ [t.id]
    liveBuffers := liveB ++ [b.id]
    render_target := t
    output_staging_buffer := b }

/-- `BenchmarkContext::rasterization_pipeline`: loads the rasterization
shader (panics if unreadable) and builds a render pipeline with vertex
entry `vertex_shader`, fragment entry `fragment_shader` and a single
`Rgba8UnormSrgb` color target. -/
def rasterization_pipeline (fs : FileSystem) :
    Except Fatal RenderPipeline :=
  match Shader.load_source fs .Rasterization with
  | .error e => .error e
  | .ok src =>
      .ok { shaderSource := src
            vertexEntryPoint := "vertex_shader"
            fragmentEntryPoint := "fragment_shader"
            targetFormat := .Rgba8UnormSrgb }

/-- `BenchmarkContext::rasterization_pass`: records a render pass on the
render target (clear to `Color::BLACK`, store, set the rasterization
pipeline, `draw(0..3, 0..1)`), then a full-extent copy of the render
target into the staging buffer with `bytes_per_row = width * 4` and
`rows_per_image = height`. -/
def rasterization_pass (fs : FileSystem) (s : BenchmarkContext) :
    Except Fatal BenchmarkContext :=
  match rasterization_pipeline fs with
  | .error e => .error e
  | .ok pipeline =>
      let pass : RenderPassRecord :=
        { targetTexture := s.render_target.id
          load := .Clear Color.BLACK
          store := .Store
          pipeline := some pipeline
          draws := [{ vertexStart := 0, vertexEnd := 3,
                      instanceStart := 0, instanceEnd := 1 }] }
      let copy : CopyTextureToBufferRecord :=
        { srcTexture := s.render_target.id
          mipLevel := 0
          originX := 0, originY := 0, originZ := 0
          dstBuffer := s.output_staging_buffer.id
          offset := 0
          bytesPerRow := some (s.render_target.width * 4)
          rowsPerImage := some s.render_target.height
          extentWidth := s.render_target.width
          extentHeight := s.render_target.height
          extentDepth := 1 }
      .ok { s with
            commands := s.commands ++
              [.renderPass pass, .copyTextureToBuffer copy] }

/-- `BenchmarkContext::submit`: `mem::replace`s the current command
encoder with a fresh empty one and enqueues the old one (finished into a
command buffer) on the queue. -/
def submit (s : BenchmarkContext) : BenchmarkContext :=
  { s with
    commands := []
    submittedBuffers := s.submittedBuffers ++ [s.commands] }

end BenchmarkContext

/-- How the external device behaves during the asynchronous readback in
`save_render_target`: either the mapping operation completes and the
`map_async` callback delivers its result, or the device never signals
completion. -/
inductive DeviceBehavior where
  | completes (mapOk : Bool)
  | neverSignals
  deriving DecidableEq, Repr

/-- `png` crate `ColorType` (only RGBA is used). -/
inductive PngColorType where
  | Rgba
  deriving DecidableEq, Repr

/-- The PNG image produced by the encoder: the dimensions passed to
`png::Encoder::new`, the color type set, the crate's default bit depth
(8), and the image bytes handed to `write_image_data`. -/
structure PngImage where
  width : Nat
  height : Nat
  colorType : PngColorType
  bitDepth : Nat
  data : List Nat
  deriving DecidableEq, Repr

/-- The file written by `save_render_target`: its directory, its name,
and the PNG it contains. -/
structure SavedFile where
  directory : FsPath
  fileName : String
  png : PngImage
  deriving DecidableEq, Repr

namespace BenchmarkContext

/-- `BenchmarkContext::image_directory`: `CARGO_MANIFEST_DIR/images`. -/
def image_directory : FsPath := [cargoManifestDir, "images"]

/-- `BenchmarkContext::save_render_target(filename)`:
`map_async(MapMode::Read, ..)` then
`device.poll(Maintain::wait()).panic_on_timeout()` — on a device that
never signals mapping completion the bounded wait times out and the
panic is fatal; then `receiver.recv_async().await.unwrap().unwrap()` —
fatal if the delivered map result is an error.  On success the mapped
bytes (`stagingBytes`, the staging buffer's contents) are copied out,
encoded as an RGBA PNG of the render target's dimensions, and written to
`image_directory()/{filename}_{width}x{height}.png`. -/
def save_render_target (s : BenchmarkContext) (filename : String)
    (behavior : DeviceBehavior) (stagingBytes : List Nat) :
    Except Fatal SavedFile :=
  let width := s.render_target.width
  let height := s.render_target.height
  match behavior with
  | .neverSignals => .error .mappingTimeout
  | .completes false => .error .mapFailed
  | .completes true =>
      let texture_data := stagingBytes
      .ok { directory := image_directory
            fileName :=
              filename ++ "_" ++ toString width ++ "x" ++
                toString height ++ ".png"
            png := { width := width
                     height := height
                     colorType := .Rgba
                     bitDepth := 8
                     data := texture_data } }

end BenchmarkContext

/-- The Context operations the driver performs, in order. -/
inductive ContextOp where
  | resizeOp (w h : Nat)
  | recordPassOp
  | submitOp
  | saveOp (name : String)
  deriving DecidableEq, Repr

/-- One iteration of the `bunny_rasterization` loop body: resize to the
given resolution, record one rasterization pass, submit, synchronously
save under the fixed benchmark name.  The `oracle` gives the device
behavior and staging-buffer contents observed at the save. -/
def runBenchmarkIteration (fs : FileSystem)
    (oracle : Nat × Nat → DeviceBehavior × List Nat)
    (s : BenchmarkContext) (size : Nat × Nat) :
    Except Fatal (BenchmarkContext × SavedFile × List ContextOp) :=
  let s := s.resize_render_target size
  match s.rasterization_pass fs with
  | .error e => .error e
  | .ok s =>
      let s := s.submit
      let (behavior, bytes) := oracle size
      match s.save_render_target "bunny_rasterization" behavior bytes with
      | .error e => .error e
      | .ok file =>
          .ok (s, file,
            [.resizeOp size.1 size.2, .recordPassOp, .submitOp,
             .saveOp "bunny_rasterization"])

/-- The `for size in resolutions` loop of `bunny_rasterization`. -/
def runResolutions (fs : FileSystem)
    (oracle : Nat × Nat → DeviceBehavior × List Nat)
    (s : BenchmarkContext) :
    List (Nat × Nat) →
    Except Fatal (BenchmarkContext × List SavedFile × List ContextOp)
  | [] => .ok (s, [], [])
  | size :: rest =>
      match runBenchmarkIteration fs oracle s size with
      | .error e => .error e
      | .ok (s, file, ops) =>
          match runResolutions fs oracle s rest with
          | .error e => .error e
          | .ok (sFinal, files, opsRest) =>
              .ok (sFinal, file :: files, ops ++ opsRest)

/-- `bunny_rasterization(context, resolutions, bunny_counts)` from
`src/main.rs`: iterates over the resolutions; the `bunny_counts`
parameter is accepted but never read by the loop body. -/
def bunny_rasterization (fs : FileSystem)
    (oracle : Nat × Nat → DeviceBehavior × List Nat)
    (context : BenchmarkContext) (resolutions : List (Nat × Nat))
    (bunny_counts : List Nat) :
    Except Fatal (BenchmarkContext × List SavedFile × List ContextOp) :=
  runResolutions fs oracle context resolutions

/-- The reachable `BenchmarkContext` states: constructed by `new`, then
closed under resizes, (successful) pass recordings and submits
(`save_render_target` takes `&self` and does not change the state). -/
inductive Reachable : BenchmarkContext → Prop where
  | init : Reachable BenchmarkContext.new
  | resize (s : BenchmarkContext) (size : Nat × Nat) :
      Reachable s → Reachable (s.resize_render_target size)
  | pass (s s' : BenchmarkContext) (fs : FileSystem) :
      Reachable s → s.rasterization_pass fs = .ok s' → Reachable s'
  | submitStep (s : BenchmarkContext) :
      Reachable s → Reachable s.submit

end Raymarks

namespace Raymarks

/-! ### Helper lemmas -/

/-- A successful `rasterization_pass` only appends to `commands`; every
other field of the context is unchanged. -/
lemma rasterization_pass_ok_shape (fs : FileSystem)
    (s s' : BenchmarkContext)
    (h : s.rasterization_pass fs = .ok s') :
    s'.render_target = s.render_target ∧
    s'.output_staging_buffer = s.output_staging_buffer ∧
    s'.liveTextures = s.liveTextures ∧
    s'.liveBuffers = s.liveBuffers ∧
    s'.nextId = s.nextId ∧
    s'.submittedBuffers = s.submittedBuffers := by
  unfold BenchmarkContext.rasterization_pass at h
  cases hp : BenchmarkContext.rasterization_pipeline fs with
  | error e => rw [hp] at h; exact Except.noConfusion h
  | ok p =>
      rw [hp] at h
      injection h with h
      subst h
      exact ⟨rfl, rfl, rfl, rfl, rfl, rfl⟩

/-- The paired-resource invariant holds in every reachable state. -/
lemma reachable_staging_invariant (s : BenchmarkContext)
    (hs : Reachable s) :
    s.output_staging_buffer.size =
      4 * s.render_target.width * s.render_target.height := by
  induction hs with
  | init =>
      norm_num [BenchmarkContext.new, BenchmarkContext.mkRenderTarget,
        BenchmarkContext.mkOutputStagingBuffer]
  | resize s size hr ih =>
      simp only [BenchmarkContext.resize_render_target,
        BenchmarkContext.mkRenderTarget,
        BenchmarkContext.mkOutputStagingBuffer]
      ring
  | pass s s' fs hr heq ih =>
      obtain ⟨h1, h2, -⟩ := rasterization_pass_ok_shape fs s s' heq
      rw [h1, h2]; exact ih
  | submitStep s hr ih => exact ih

end Raymarks

namespace Raymarks

/-! ### Claim theorems -/

/-- C1: in every reachable Context state the staging buffer's byte
capacity equals `4 * render_target.width * render_target.height`; the
invariant is established at construction (default 1024×1024 target with
matching buffer) and re-established by every `resize_render_target
(w, h)` with `w > 0` and `h > 0`, after which the render target's
dimensions are `(w, h)` and the staging buffer's capacity is exactly
`4 * w * h`. -/
theorem staging_capacity_paired_invariant (s : BenchmarkContext)
    (hs : Reachable s) (w h : Nat) (hw : 0 < w) (hh : 0 < h) :
    s.output_staging_buffer.size =
      4 * s.render_target.width * s.render_target.height
    ∧ BenchmarkContext.new.render_target.width = 1024
    ∧ BenchmarkContext.new.render_target.height = 1024
    ∧ BenchmarkContext.new.output_staging_buffer.size = 4 * 1024 * 1024
    ∧ (s.resize_render_target (w, h)).render_target.width = w
    ∧ (s.resize_render_target (w, h)).render_target.height = h
    ∧ (s.resize_render_target (w, h)).output_staging_buffer.size =
        4 * w * h := by
  refine ⟨reachable_staging_invariant s hs, rfl, rfl, by decide, rfl, rfl, ?_⟩
  simp only [BenchmarkContext.resize_render_target,
    BenchmarkContext.mkOutputStagingBuffer]
  ring

/-- Witness for C1 at the initial state and resolution (2, 3). -/
theorem staging_capacity_paired_invariant_witness :
    BenchmarkContext.new.output_staging_buffer.size =
      4 * BenchmarkContext.new.render_target.width *
        BenchmarkContext.new.render_target.height
    ∧ BenchmarkContext.new.render_target.width = 1024
    ∧ BenchmarkContext.new.render_target.height = 1024
    ∧ BenchmarkContext.new.output_staging_buffer.size = 4 * 1024 * 1024
    ∧ (BenchmarkContext.new.resize_render_target (2, 3)).render_target.width = 2
    ∧ (BenchmarkContext.new.resize_render_target (2, 3)).render_target.height = 3
    ∧ (BenchmarkContext.new.resize_render_target
        (2, 3)).output_staging_buffer.size = 4 * 2 * 3 :=
  staging_capacity_paired_invariant BenchmarkContext.new Reachable.init
    2 3 (by decide) (by decide)

/-- C2: `submit` replaces the recorder with a fresh empty one, enqueues
exactly the commands recorded in the old recorder, and leaves every
other component of the Context unchanged; the Context always holds
exactly one recorder (`commands`), which after `submit` is empty and so
usable for further recording. -/
theorem submit_swaps_recorder (s : BenchmarkContext) :
    s.submit.commands = []
    ∧ s.submit.submittedBuffers = s.submittedBuffers ++ [s.commands]
    ∧ s.submit.render_target = s.render_target
    ∧ s.submit.output_staging_buffer = s.output_staging_buffer
    ∧ s.submit.liveTextures = s.liveTextures
    ∧ s.submit.liveBuffers = s.liveBuffers
    ∧ s.submit.nextId = s.nextId :=
  ⟨rfl, rfl, rfl, rfl, rfl, rfl, rfl⟩

/-- C3: `save_render_target` is a total function of the device's
behavior: on a device that never signals mapping completion the bounded
wait times out and the call fails fatally (`mappingTimeout`) instead of
blocking; when the device signals completion the call returns. -/
theorem save_render_target_never_hangs (s : BenchmarkContext)
    (name : String) (bytes : List Nat) :
    s.save_render_target name .neverSignals bytes =
      .error .mappingTimeout
    ∧ (∃ f, s.save_render_target name (.completes true) bytes = .ok f) :=
  ⟨rfl, ⟨_, rfl⟩⟩

/-- C4: `rasterization_pass` appends, in order, a render pass on the
current render target (clear-to-black load, store, rasterization
pipeline bound, one non-indexed draw of vertices `0..3` and instances
`0..1`) and then a full-extent texture-to-buffer copy into the staging
buffer with `bytes_per_row = width * 4` and `rows_per_image = height`,
with no padding of the row pitch. -/
theorem rasterization_pass_records (fs : FileSystem)
    (s : BenchmarkContext) (src : String)
    (hsrc : fs (Shader.sourcePath .Rasterization) = some src) :
    s.rasterization_pass fs = .ok { s with
      commands := s.commands ++
        [.renderPass
            { targetTexture := s.render_target.id
              load := .Clear Color.BLACK
              store := .Store
              pipeline := some
                { shaderSource := src
                  vertexEntryPoint := "vertex_shader"
                  fragmentEntryPoint := "fragment_shader"
                  targetFormat := .Rgba8UnormSrgb }
              draws := [{ vertexStart := 0, vertexEnd := 3,
                          instanceStart := 0, instanceEnd := 1 }] },
          .copyTextureToBuffer
            { srcTexture := s.render_target.id
              mipLevel := 0
              originX := 0, originY := 0, originZ := 0
              dstBuffer := s.output_staging_buffer.id
              offset := 0
              bytesPerRow := some (s.render_target.width * 4)
              rowsPerImage := some s.render_target.height
              extentWidth := s.render_target.width
              extentHeight := s.render_target.height
              extentDepth := 1 }] } := by
  unfold BenchmarkContext.rasterization_pass
    BenchmarkContext.rasterization_pipeline Shader.load_source
  rw [hsrc]

/-- An always-populated filesystem whose every file reads "wgsl". -/
def constFs : FileSystem := fun _ => some "wgsl"

/-- Witness for C4 on the initial state and `constFs`. -/
theorem rasterization_pass_records_witness :
    BenchmarkContext.new.rasterization_pass constFs = .ok
      { BenchmarkContext.new with
        commands := BenchmarkContext.new.commands ++
          [.renderPass
              { targetTexture := BenchmarkContext.new.render_target.id
                load := .Clear Color.BLACK
                store := .Store
                pipeline := some
                  { shaderSource := "wgsl"
                    vertexEntryPoint := "vertex_shader"
                    fragmentEntryPoint := "fragment_shader"
                    targetFormat := .Rgba8UnormSrgb }
                draws := [{ vertexStart := 0, vertexEnd := 3,
                            instanceStart := 0, instanceEnd := 1 }] },
            .copyTextureToBuffer
              { srcTexture := BenchmarkContext.new.render_target.id
                mipLevel := 0
                originX := 0, originY := 0, originZ := 0
                dstBuffer := BenchmarkContext.new.output_staging_buffer.id
                offset := 0
                bytesPerRow :=
                  some (BenchmarkContext.new.render_target.width * 4)
                rowsPerImage := some BenchmarkContext.new.render_target.height
                extentWidth := BenchmarkContext.new.render_target.width
                extentHeight := BenchmarkContext.new.render_target.height
                extentDepth := 1 }] } :=
  rasterization_pass_records constFs BenchmarkContext.new "wgsl" rfl

end Raymarks

namespace Raymarks

/-- C5: on a responsive device, `save_render_target name` encodes the
bytes read back from the staging buffer as an 8-bit RGBA PNG whose
dimensions are exactly the render target's `(width, height)`, written to
a file named `{name}_{width}x{height}.png` under the fixed
`image_directory()`. -/
theorem save_render_target_png_output (s : BenchmarkContext)
    (name : String) (bytes : List Nat) :
    s.save_render_target name (.completes true) bytes =
      .ok { directory := BenchmarkContext.image_directory
            fileName := name ++ "_" ++ toString s.render_target.width
              ++ "x" ++ toString s.render_target.height ++ ".png"
            png := { width := s.render_target.width
                     height := s.render_target.height
                     colorType := .Rgba
                     bitDepth := 8
                     data := bytes } } := rfl

/-- C6: submitting twice with no recording in between leaves the Context
intact and enqueues an empty command buffer as the second submission; no
previously submitted command is resubmitted. -/
theorem submit_twice_empty_second (s : BenchmarkContext) :
    s.submit.submit.submittedBuffers =
      s.submittedBuffers ++ [s.commands] ++ [[]]
    ∧ s.submit.submit.commands = []
    ∧ s.submit.submit.render_target = s.render_target
    ∧ s.submit.submit.output_staging_buffer = s.output_staging_buffer :=
  ⟨rfl, rfl, rfl, rfl⟩

/-- Erasing the just-appended element and appending another preserves
the length of a list. -/
lemma length_erase_append_singleton (l : List Nat) (a b : Nat) :
    ((l ++ [a]).erase a ++ [b]).length = (l ++ [a]).length := by
  have hmem : a ∈ l ++ [a] := by simp
  simp [List.length_erase_of_mem hmem]

/-- C7: resizing twice in a row to the same `(w, h)` leaves the render
target and staging buffer with the same dimensions and capacity as a
single resize, and the numbers of live texture and buffer allocations
are the same (each resize erases the previous allocations before
installing the new ones — the old ids are released before each
replacement). -/
theorem resize_idempotent_effect (s : BenchmarkContext) (w h : Nat)
    (hw : 0 < w) (hh : 0 < h) :
    ((s.resize_render_target (w, h)).resize_render_target
        (w, h)).render_target.width =
      (s.resize_render_target (w, h)).render_target.width
    ∧ ((s.resize_render_target (w, h)).resize_render_target
        (w, h)).render_target.height =
      (s.resize_render_target (w, h)).render_target.height
    ∧ ((s.resize_render_target (w, h)).resize_render_target
        (w, h)).output_staging_buffer.size =
      (s.resize_render_target (w, h)).output_staging_buffer.size
    ∧ ((s.resize_render_target (w, h)).resize_render_target
        (w, h)).liveTextures.length =
      (s.resize_render_target (w, h)).liveTextures.length
    ∧ ((s.resize_render_target (w, h)).resize_render_target
        (w, h)).liveBuffers.length =
      (s.resize_render_target (w, h)).liveBuffers.length
    ∧ (s.resize_render_target (w, h)).liveTextures =
        s.liveTextures.erase s.render_target.id ++ [s.nextId]
    ∧ (s.resize_render_target (w, h)).liveBuffers =
        s.liveBuffers.erase s.output_staging_buffer.id ++ [s.nextId + 1] :=
  ⟨rfl, rfl, rfl,
    length_erase_append_singleton _ _ _,
    length_erase_append_singleton _ _ _,
    rfl, rfl⟩

/-- Witness for C7 at the initial state and resolution (64, 64). -/
theorem resize_idempotent_effect_witness :
    ((BenchmarkContext.new.resize_render_target (64, 64)).resize_render_target
        (64, 64)).render_target.width =
      (BenchmarkContext.new.resize_render_target (64, 64)).render_target.width
    ∧ ((BenchmarkContext.new.resize_render_target (64, 64)).resize_render_target
        (64, 64)).render_target.height =
      (BenchmarkContext.new.resize_render_target (64, 64)).render_target.height
    ∧ ((BenchmarkContext.new.resize_render_target (64, 64)).resize_render_target
        (64, 64)).output_staging_buffer.size =
      (BenchmarkContext.new.resize_render_target
        (64, 64)).output_staging_buffer.size
    ∧ ((BenchmarkContext.new.resize_render_target (64, 64)).resize_render_target
        (64, 64)).liveTextures.length =
      (BenchmarkContext.new.resize_render_target (64, 64)).liveTextures.length
    ∧ ((BenchmarkContext.new.resize_render_target (64, 64)).resize_render_target
        (64, 64)).liveBuffers.length =
      (BenchmarkContext.new.resize_render_target (64, 64)).liveBuffers.length
    ∧ (BenchmarkContext.new.resize_render_target (64, 64)).liveTextures =
        BenchmarkContext.new.liveTextures.erase
          BenchmarkContext.new.render_target.id ++ [BenchmarkContext.new.nextId]
    ∧ (BenchmarkContext.new.resize_render_target (64, 64)).liveBuffers =
        BenchmarkContext.new.liveBuffers.erase
          BenchmarkContext.new.output_staging_buffer.id ++
            [BenchmarkContext.new.nextId + 1] :=
  resize_idempotent_effect BenchmarkContext.new 64 64 (by decide) (by decide)

/-- C8: the Shader Registry maps `Rasterization` to the file name
`rasterization.wgsl`; `load_source` returns the text at
`shader_directory()/source_file()` verbatim exactly when the file is
present, fails (fatally) exactly when it is absent or unreadable, and is
stateless — each call depends only on the file contents at that path at
call time. -/
theorem shader_registry_contract :
    Shader.source_file .Rasterization = "rasterization.wgsl"
    ∧ (∀ (fs : FileSystem) (sh : Shader) (t : String),
        Shader.load_source fs sh = .ok t ↔ fs sh.sourcePath = some t)
    ∧ (∀ (fs : FileSystem) (sh : Shader),
        Shader.load_source fs sh = .error .shaderReadError ↔
          fs sh.sourcePath = none)
    ∧ (∀ (fs fsB : FileSystem) (sh : Shader),
        fs sh.sourcePath = fsB sh.sourcePath →
          Shader.load_source fs sh = Shader.load_source fsB sh) := by
  refine ⟨rfl, ?_, ?_, ?_⟩
  · intro fs sh t
    unfold Shader.load_source
    cases hfs : fs sh.sourcePath <;> simp
  · intro fs sh
    unfold Shader.load_source
    cases hfs : fs sh.sourcePath <;> simp
  · intro fs fsB sh hEq
    unfold Shader.load_source
    rw [hEq]

/-- Witness for C8 on a filesystem whose every file reads "wgsl". -/
theorem shader_registry_contract_witness :
    Shader.load_source constFs .Rasterization = .ok "wgsl" :=
  (shader_registry_contract.2.1 constFs .Rasterization "wgsl").mpr rfl

/-- C9: two runs of the driver that differ only in the bunny-count list
perform the same sequence of Context operations, produce the same saved
files and end in the same state — the workload size is accepted but has
no effect. -/
theorem bunny_counts_noninterference (fs : FileSystem)
    (oracle : Nat × Nat → DeviceBehavior × List Nat)
    (context : BenchmarkContext) (resolutions : List (Nat × Nat))
    (counts1 counts2 : List Nat) :
    bunny_rasterization fs oracle context resolutions counts1 =
      bunny_rasterization fs oracle context resolutions counts2 := rfl

/-- C10: `resize_render_target` validates nothing: for every requested
size, including a zero width or height, it destroys the old render
target and staging buffer and installs new ones of exactly the requested
size; a zero dimension yields a zero-capacity staging buffer. -/
theorem resize_no_validation (s : BenchmarkContext) (w h : Nat) :
    (s.resize_render_target (w, h)).render_target.width = w
    ∧ (s.resize_render_target (w, h)).render_target.height = h
    ∧ (s.resize_render_target (w, h)).output_staging_buffer.size = w * h * 4
    ∧ (s.resize_render_target (w, h)).liveTextures =
        s.liveTextures.erase s.render_target.id ++ [s.nextId]
    ∧ (s.resize_render_target (w, h)).liveBuffers =
        s.liveBuffers.erase s.output_staging_buffer.id ++ [s.nextId + 1]
    ∧ (s.resize_render_target (0, h)).output_staging_buffer.size = 0 :=
  ⟨rfl, rfl, rfl, rfl, rfl, by
    simp [BenchmarkContext.resize_render_target,
      BenchmarkContext.mkOutputStagingBuffer]⟩

end Raymarks
